import Mathlib

/-!
Verification of the resume-evaluation backend (src/main.py): a shallow
embedding of the single endpoint handler ats_optimize_resume, covering the
declared-media-type validation, the mock mode taken when the Gemini client
failed to initialize, the upload / generate / delete calls to the external
AI service (modelled as an environment of pure functions), the defensive
JSON parsing of the model reply, and the finally-block cleanup of the
remote upload handle.
-/

/-- Python values as produced by json.loads on the JSON fragment this
development needs: integers, strings, booleans, null, and string-keyed
objects. -/
inductive PyVal where
  | int (n : Int)
  | str (s : String)
  | bool (b : Bool)
  | null
  | dict (entries : List (String × PyVal))

/-- Character-list prefix test, used to model Python str.startswith and
the occurrence scan of str.replace on code points. -/
def prefixOfB : List Char → List Char → Bool
  | [], _ => true
  | _ :: _, [] => false
  | p :: ps, c :: cs => p == c && prefixOfB ps cs

/-- Character-list substring test (Python `in` on str). -/
def infixOfB (pat : List Char) : List Char → Bool
  | [] => pat.isEmpty
  | c :: t => prefixOfB pat (c :: t) || infixOfB pat t

/-- Fueled core of Python str.replace: replaces every non-overlapping
occurrence of pat, scanning left to right, for a nonempty pat (every use
below passes a nonempty pattern); the fuel is the length of the scanned
list, which the scan never exceeds since each step consumes at least one
character. -/
def replaceAllF (pat repl : List Char) : Nat → List Char → List Char
  | 0, s => s
  | _ + 1, [] => []
  | f + 1, c :: rest =>
    if !pat.isEmpty && prefixOfB pat (c :: rest) then
      repl ++ replaceAllF pat repl f (rest.drop (pat.length - 1))
    else
      c :: replaceAllF pat repl f rest

/-- Python s.replace(pat, repl) for nonempty pat (line 104 of src/main.py
only replaces the nonempty fence markers). -/
def pyReplace (s pat repl : String) : String :=
  String.mk (replaceAllF pat.data repl.data s.data.length s.data)

/-- The characters Python str.strip() removes by default. -/
def pySpace (c : Char) : Bool :=
  c == ' ' || c == '\t' || c == '\n' || c == '\r' || c == '\x0b' || c == '\x0c'

/-- Python str.strip(). -/
def pyStrip (s : String) : String :=
  String.mk ((((s.data.dropWhile pySpace).reverse).dropWhile pySpace).reverse)

/-- Python s[:n] on code points. -/
def pyTake (n : Nat) (s : String) : String := String.mk (s.data.take n)

/-- containsSub s pat: pat occurs somewhere in s (Python `pat in s`). -/
def containsSub (s pat : String) : Bool := infixOfB pat.data s.data

/-- Python s.startswith(pre). -/
def pyStartsWith (s pre : String) : Bool := prefixOfB pre.data s.data

/-- The literal opening fence marker removed first on line 104 (three
backticks followed by the word json; backticks written escaped). -/
def fenceJson : String := "\x60\x60\x60json"

/-- The literal bare fence marker removed second on line 104. -/
def fenceTick : String := "\x60\x60\x60"

/-- The two accepted media-type prefixes of line 48. -/
def pdfOrDocx (m : String) : Bool :=
  pyStartsWith m "application/pdf" ||
    pyStartsWith m "application/vnd.openxmlformats-officedocument.wordprocessingml"

/-- Line 48: `if file_mime_type and not file_mime_type.startswith(...)`.
The check can only reject a truthy content type: an absent content type
(None) and the empty string are both falsy in Python, so validation is
skipped for them. -/
def mimeCheckFails : Option String → Bool
  | none => false
  | some m => !m.data.isEmpty && !pdfOrDocx m

/-- Detail string of the 400 response raised on line 49. -/
def invalidFileDetail : String := "Invalid file type. Please upload a PDF or DOCX."

/-- The canned mock-mode suggestions string returned on line 56
(apostrophes written escaped). -/
def mockSuggestions : String :=
  "⚠️ MOCK DATA: Missing \x27DevOps\x27 and \x27Kubernetes\x27. Add these to your experience section. (API Key not configured.)"

/-- The default used on line 108 when the suggestions key is absent. -/
def noSuggestionsDefault : String := "No detailed suggestions provided by AI."

/-- The degraded suggestions string built on line 116 from the first 200
characters of the raw (unstripped) model text. -/
def parseFailSuggestions (raw : String) : String :=
  "Error: Could not parse structured output from AI. Raw response: " ++ pyTake 200 raw ++ "..."

/-- Detail string of the 500 response raised on lines 128-131. -/
def svcDetail (e : String) : String :=
  "AI Service Error: Failed to process file. Check API keys and Vercel logs. Error: " ++ e

/-- The system instruction of lines 73-78. -/
def systemInstruction : String :=
  "You are an expert Applicant Tracking System (ATS) optimization engine. " ++
    "Analyze the provided Resume file against the Job Description. " ++
    "Your output MUST be a single JSON object with the keys \x27matchScore\x27 (integer percentage) and \x27suggestions\x27 (string with detailed, actionable bullet points for improvement)." ++
    "Do NOT include any preamble or extra text outside the JSON object."

/-- The model identifier of line 90. -/
def geminiModel : String := "gemini-2.5-flash"

/-- The multipart form fields and upload of the endpoint (lines 39-43):
two text fields plus the resume file's declared content type and bytes. -/
structure Request where
  job_description : String
  job_title : String
  contentType : Option String
  fileBytes : List Nat

/-- The user prompt of lines 81-86, embedding the job title and the job
description verbatim. -/
def promptFor (req : Request) : String :=
  "Analyze this resume against the following job description for the role: " ++ req.job_title ++
    "\n\n**Job Description:**\n" ++ req.job_description ++ "\n\n" ++
    "Provide the ATS Match Score and detailed, actionable suggestions for improving the resume\x27s alignment with the job description. " ++
    "Your response must be a single JSON object."

/-- Python isinstance(v, int): true for int and also for bool, because
bool is a subclass of int in Python. -/
def pyIsInstInt : PyVal → Bool
  | .int _ => true
  | .bool _ => true
  | _ => false

/-- The numeric value Python uses when comparing an int-like (True is 1,
False is 0); only ever consulted after pyIsInstInt holds, mirroring the
short-circuit on line 110. -/
def pyToInt : PyVal → Int
  | .int n => n
  | .bool b => if b then 1 else 0
  | _ => 0

/-- Line 110: `not isinstance(match_score, int) or match_score < 0 or
match_score > 100`. -/
def scoreInvalid (v : PyVal) : Bool :=
  !pyIsInstInt v || decide (pyToInt v < 0) || decide (pyToInt v > 100)

/-- Python dict.get(key, dflt) on a parsed json object. -/
def pyDictGet (entries : List (String × PyVal)) (key : String) (dflt : PyVal) : PyVal :=
  match entries.find? (fun kv => kv.1 == key) with
  | some kv => kv.2
  | none => dflt

/-- Python type name of a non-dict value, used for the AttributeError text
raised by `.get` on such a value. -/
def pyTypeName : PyVal → String
  | .int _ => "int"
  | .str _ => "str"
  | .bool _ => "bool"
  | .null => "NoneType"
  | .dict _ => "dict"

/-- Message of the AttributeError Python raises when `.get` is called on a
value that is not a dict (line 107 when json.loads returned a non-object);
this error is not in the `except (json.JSONDecodeError, ValueError)` list,
so it escapes to the outer handler. -/
def attrErrDetail (v : PyVal) : String :=
  "\x27" ++ pyTypeName v ++ "\x27 object has no attribute \x27get\x27"

/-- Line 104: strip the raw model text, then delete every occurrence of
the json fence marker, then every occurrence of the bare fence marker. -/
def stripFences (raw : String) : String :=
  pyReplace (pyReplace (pyStrip raw) fenceJson "") fenceTick ""

/-- The body of the response dict built on lines 119-123: success is the
literal True; matchScore and suggestions keep whatever Python value
survived the parse step. -/
structure AnalysisResult where
  success : Bool
  matchScore : PyVal
  suggestions : PyVal

/-- Lines 103-116: parse json_text; a JSONDecodeError (loads returns none)
or the explicit ValueError of line 111 is absorbed into the degraded
(50, excerpt) pair; an AttributeError from calling .get on a non-dict
escapes as an ordinary exception (the .error case). -/
def parseBody (loads : String → Option PyVal) (raw : String) : Except String (PyVal × PyVal) :=
  match loads (stripFences raw) with
  | none => .ok (.int 50, .str (parseFailSuggestions raw))
  | some (.dict entries) =>
    let ms := pyDictGet entries "matchScore" (.int 0)
    let sug := pyDictGet entries "suggestions" (.str noSuggestionsDefault)
    if scoreInvalid ms then .ok (.int 50, .str (parseFailSuggestions raw))
    else .ok (ms, sug)
  | some v => .error (attrErrDetail v)

/-- Arguments of the generate_content call of lines 89-100. -/
structure GenRequest where
  model : String
  sysInstruction : String
  prompt : String
  fileHandle : String

/-- The external world as the handler sees it: the process-wide
GEMINI_CONFIGURED flag set at import time (lines 28-35), and the Gemini
client operations plus json.loads, modelled as pure functions of exactly
the data the code passes them.  upload takes the file bytes and the
declared mime type and yields the name of the created remote handle or the
text of the exception it raised; generate yields the response text or an
exception text; delete takes the handle name; loads returns none where
json.loads raises JSONDecodeError. -/
structure Env where
  geminiConfigured : Bool
  upload : List Nat → Option String → Except String String
  generate : GenRequest → Except String String
  delete : String → Except String Unit
  loads : String → Option PyVal

/-- How one invocation of the handler ends: a returned response dict, a
raised HTTPException (status code and detail), or an exception that
escapes the handler unhandled. -/
inductive Outcome where
  | ok (r : AnalysisResult)
  | httpError (status : Nat) (detail : String)
  | raised (msg : String)

/-- The AI-service side effects of one invocation: how many upload and
generate calls were issued, and the handle names passed to delete calls,
in order. -/
structure Trace where
  uploadCalls : Nat
  generateCalls : Nat
  deleteCalls : List String

/-- Shallow embedding of ats_optimize_resume (src/main.py lines 38-136).
Control flow: the 400 of line 49 precedes the try block, so no cleanup
runs for it; the mock return of lines 52-57 likewise; inside the try,
a failed upload leaves uploaded_file as None so the finally block deletes
nothing, while after a successful upload the finally block always issues
exactly one delete for the handle; any non-parse exception becomes the 500
of lines 128-131; if the delete itself raises, that exception replaces
whatever the try/except was about to produce, exactly as a Python finally
block does. -/
def atsOptimizeResume (env : Env) (req : Request) : Outcome × Trace :=
  if mimeCheckFails req.contentType then
    (.httpError 400 invalidFileDetail, ⟨0, 0, []⟩)
  else if env.geminiConfigured = false then
    (.ok ⟨true, .int 75, .str mockSuggestions⟩, ⟨0, 0, []⟩)
  else
    match env.upload req.fileBytes req.contentType with
    | .error e => (.httpError 500 (svcDetail e), ⟨1, 0, []⟩)
    | .ok handle =>
      let afterGen : Outcome :=
        match env.generate ⟨geminiModel, systemInstruction, promptFor req, handle⟩ with
        | .error e => .httpError 500 (svcDetail e)
        | .ok text =>
          match parseBody env.loads text with
          | .error msg => .httpError 500 (svcDetail msg)
          | .ok (ms, sug) => .ok ⟨true, ms, sug⟩
      match env.delete handle with
      | .ok _ => (afterGen, ⟨1, 1, [handle]⟩)
      | .error d => (.raised d, ⟨1, 1, [handle]⟩)

/-- Whitespace the JSON grammar allows between tokens. -/
def jsonWsChar (c : Char) : Bool :=
  c == ' ' || c == '\t' || c == '\n' || c == '\r'

/-- Drop leading JSON whitespace. -/
def skipJsonWs : List Char → List Char
  | [] => []
  | c :: r => if jsonWsChar c then skipJsonWs r else c :: r

/-- Value of one hexadecimal digit. -/
def hexDigitVal (c : Char) : Option Nat :=
  if '0' ≤ c && c ≤ '9' then some (c.toNat - 48)
  else if 'a' ≤ c && c ≤ 'f' then some (c.toNat - 87)
  else if 'A' ≤ c && c ≤ 'F' then some (c.toNat - 55)
  else none

/-- True for an ASCII decimal digit. -/
def isDigitCh (c : Char) : Bool := '0' ≤ c && c ≤ '9'

/-- Consume a run of decimal digits, extending the accumulator. -/
def digitsToNat (acc : Nat) : List Char → Nat × List Char
  | [] => (acc, [])
  | c :: r => if isDigitCh c then digitsToNat (acc * 10 + (c.toNat - 48)) r else (acc, c :: r)

/-- Body of a JSON string after its opening quote, decoding the escape
sequences of the JSON grammar (including unicode escapes); returns the
decoded characters and the input after the closing quote. -/
def parseStrBody : Nat → List Char → Option (List Char × List Char)
  | 0, _ => none
  | _ + 1, [] => none
  | f + 1, c :: r =>
    if c = '"' then some ([], r)
    else if c = '\\' then
      match r with
      | [] => none
      | e :: r2 =>
        let esc : Option (Char × List Char) :=
          if e = '"' then some ('"', r2)
          else if e = '\\' then some ('\\', r2)
          else if e = '/' then some ('/', r2)
          else if e = 'b' then some ('\x08', r2)
          else if e = 'f' then some ('\x0c', r2)
          else if e = 'n' then some ('\n', r2)
          else if e = 'r' then some ('\r', r2)
          else if e = 't' then some ('\t', r2)
          else if e = 'u' then
            match r2 with
            | a :: b :: c2 :: d :: r3 =>
              match hexDigitVal a, hexDigitVal b, hexDigitVal c2, hexDigitVal d with
              | some ha, some hb, some hc, some hd =>
                some (Char.ofNat (((ha * 16 + hb) * 16 + hc) * 16 + hd), r3)
              | _, _, _, _ => none
            | _ => none
          else none
        match esc with
        | none => none
        | some (ch, rest) =>
          match parseStrBody f rest with
          | none => none
          | some (cs, rem) => some (ch :: cs, rem)
    else
      match parseStrBody f r with
      | none => none
      | some (cs, rem) => some (c :: cs, rem)

/-- One scalar JSON value: string, integer, true, false or null. -/
def parseScalar (f : Nat) (l : List Char) : Option (PyVal × List Char) :=
  match l with
  | [] => none
  | c :: r =>
    if c = '"' then
      match parseStrBody f r with
      | none => none
      | some (cs, rem) => some (.str (String.mk cs), rem)
    else if c = 't' then
      match r with
      | 'r' :: 'u' :: 'e' :: r2 => some (.bool true, r2)
      | _ => none
    else if c = 'f' then
      match r with
      | 'a' :: 'l' :: 's' :: 'e' :: r2 => some (.bool false, r2)
      | _ => none
    else if c = 'n' then
      match r with
      | 'u' :: 'l' :: 'l' :: r2 => some (.null, r2)
      | _ => none
    else if c = '-' then
      match r with
      | [] => none
      | d :: r2 =>
        if isDigitCh d then
          match digitsToNat (d.toNat - 48) r2 with
          | (n, rem) => some (.int (-(n : Int)), rem)
        else none
    else if isDigitCh c then
      match digitsToNat (c.toNat - 48) r with
      | (n, rem) => some (.int (n : Int), rem)
    else none

/-- Insert a member into an object, overriding an existing key the way a
Python dict built by json.loads does. -/
def upsert (entries : List (String × PyVal)) (k : String) (v : PyVal) : List (String × PyVal) :=
  match entries with
  | [] => [(k, v)]
  | (k2, v2) :: r => if k2 = k then (k, v) :: r else (k2, v2) :: upsert r k v

/-- Members of a JSON object after its opening brace (at least one member
expected; the empty object is handled by the caller). -/
def parseMembers (f : Nat) (entries : List (String × PyVal)) (l : List Char) : Option (PyVal × List Char) :=
  match f with
  | 0 => none
  | f + 1 =>
    match skipJsonWs l with
    | '"' :: r =>
      match parseStrBody f r with
      | none => none
      | some (key, r2) =>
        match skipJsonWs r2 with
        | ':' :: r3 =>
          match parseScalar f (skipJsonWs r3) with
          | none => none
          | some (v, r4) =>
            match skipJsonWs r4 with
            | ',' :: r5 => parseMembers f (upsert entries (String.mk key) v) r5
            | '\x7d' :: r5 => some (.dict (upsert entries (String.mk key) v), r5)
            | _ => none
        | _ => none
    | _ => none

/-- Model of Python json.loads on the flat fragment of JSON this
development exercises: a scalar, or one object whose member values are
scalars.  It exists only to instantiate the abstract loads field of Env at
concrete inputs in witnesses and counterexamples; the handler itself is
stated against an arbitrary loads.  none models a raised JSONDecodeError. -/
def jsonLoads (s : String) : Option PyVal :=
  let f := s.data.length + 1
  let res : Option (PyVal × List Char) :=
    match skipJsonWs s.data with
    | '\x7b' :: r =>
      match skipJsonWs r with
      | '\x7d' :: r2 => some (.dict [], r2)
      | _ => parseMembers f [] r
    | l => parseScalar f l
  match res with
  | none => none
  | some (v, rem) => if skipJsonWs rem = [] then some v else none

/-- The backtick character (escaped), the building block of the fence
markers. -/
def tick : Char := '\x60'

theorem prefixOfB_append (p q s : List Char) (h : prefixOfB (p ++ q) s = true) :
    prefixOfB p s = true := by
  induction p generalizing s with
  | nil => simp [prefixOfB]
  | cons a ps ih =>
    cases s with
    | nil => simp [prefixOfB] at h
    | cons c cs =>
      simp only [List.cons_append, prefixOfB, Bool.and_eq_true] at h ⊢
      exact ⟨h.1, ih cs h.2⟩

theorem infixOfB_append_left (p q s : List Char) (h : infixOfB (p ++ q) s = true) :
    infixOfB p s = true := by
  induction s with
  | nil =>
    simp [infixOfB, List.isEmpty_iff] at h ⊢
    exact h.1
  | cons c t ih =>
    simp only [infixOfB, Bool.or_eq_true] at h ⊢
    rcases h with h | h
    · exact Or.inl (prefixOfB_append p q _ h)
    · exact Or.inr (ih h)

theorem prefixOfB_self (p t : List Char) : prefixOfB p (p ++ t) = true := by
  induction p with
  | nil => simp [prefixOfB]
  | cons a ps ih => simp [prefixOfB, ih]

theorem infixOfB_sandwich (pat pre post : List Char) :
    infixOfB pat (pre ++ (pat ++ post)) = true := by
  induction pre with
  | nil =>
    cases pat with
    | nil =>
      simp only [List.nil_append]
      induction post with
      | nil => simp [infixOfB]
      | cons c t ih => simp [infixOfB, prefixOfB]
    | cons a ps =>
      simp only [List.nil_append, List.cons_append, infixOfB, Bool.or_eq_true]
      exact Or.inl (by simpa using prefixOfB_self (a :: ps) post)
  | cons c pre ih =>
    simp only [List.cons_append, infixOfB, Bool.or_eq_true]
    exact Or.inr ih

-- head preservation through the tick-fence removal pass
theorem tickOne_of_out (f : Nat) (s : List Char)
    (h : prefixOfB [tick] (replaceAllF [tick, tick, tick] [] f s) = true) :
    prefixOfB [tick] s = true := by
  induction f generalizing s with
  | zero => simpa [replaceAllF] using h
  | succ f ih =>
    cases s with
    | nil => simp [replaceAllF, prefixOfB] at h
    | cons c rest =>
      by_cases hc : (!List.isEmpty [tick, tick, tick] && prefixOfB [tick, tick, tick] (c :: rest)) = true
      · simp only [prefixOfB, Bool.and_eq_true, List.isEmpty, Bool.not_false] at hc ⊢
        exact ⟨hc.2.1, trivial⟩
      · simp only [replaceAllF, if_neg hc] at h
        simp only [prefixOfB, Bool.and_eq_true] at h ⊢
        exact ⟨h.1, trivial⟩

theorem tickTwo_of_out (f : Nat) (s : List Char)
    (h : prefixOfB [tick, tick] (replaceAllF [tick, tick, tick] [] f s) = true) :
    prefixOfB [tick, tick] s = true := by
  induction f generalizing s with
  | zero => simpa [replaceAllF] using h
  | succ f ih =>
    cases s with
    | nil => simp [replaceAllF, prefixOfB] at h
    | cons c rest =>
      by_cases hc : (!List.isEmpty [tick, tick, tick] && prefixOfB [tick, tick, tick] (c :: rest)) = true
      · rw [Bool.and_eq_true] at hc
        exact prefixOfB_append [tick, tick] [tick] (c :: rest) hc.2
      · simp only [replaceAllF, if_neg hc] at h
        simp only [prefixOfB, Bool.and_eq_true] at h ⊢
        exact ⟨h.1, tickOne_of_out f rest h.2⟩

theorem tickInfix_out_false (f : Nat) (s : List Char) (hf : s.length ≤ f) :
    infixOfB [tick, tick, tick] (replaceAllF [tick, tick, tick] [] f s) = false := by
  induction f generalizing s with
  | zero =>
    have hs : s = [] := List.length_eq_zero.mp (Nat.le_zero.mp hf)
    subst hs
    simp [replaceAllF, infixOfB]
  | succ f ih =>
    cases s with
    | nil => simp [replaceAllF, infixOfB]
    | cons c rest =>
      have hrest : rest.length ≤ f := by
        simpa [List.length_cons, Nat.succ_le_succ_iff] using hf
      by_cases hc : (!List.isEmpty [tick, tick, tick] && prefixOfB [tick, tick, tick] (c :: rest)) = true
      · simp only [replaceAllF, if_pos hc, List.nil_append]
        exact ih _ (by simp only [List.length_drop]; omega)
      · simp only [replaceAllF, if_neg hc, infixOfB]
        rw [Bool.or_eq_false_iff]
        refine ⟨?_, ih rest hrest⟩
        simp only [prefixOfB]
        cases htc : (tick == c) with
        | false => simp
        | true =>
          rw [Bool.true_and]
          cases hpp : prefixOfB [tick, tick] (replaceAllF [tick, tick, tick] [] f rest) with
          | false => rfl
          | true =>
            exfalso
            have hful : (!List.isEmpty [tick, tick, tick] && prefixOfB [tick, tick, tick] (c :: rest)) = true := by
              simp only [prefixOfB, List.isEmpty, Bool.not_false, Bool.true_and]
              rw [htc, Bool.true_and]
              exact tickTwo_of_out f rest hpp
            exact hc hful

/-- Appending strings appends their character lists. -/
theorem string_data_append (s t : String) : (s ++ t).data = s.data ++ t.data := by
  cases s
  cases t
  rfl

/-- A string occurs in pre ++ s ++ post. -/
theorem containsSub_middle (pre mid post : String) :
    containsSub (pre ++ mid ++ post) mid = true := by
  show infixOfB mid.data (pre ++ mid ++ post).data = true
  have hd : (pre ++ mid ++ post).data = pre.data ++ (mid.data ++ post.data) := by
    rw [string_data_append, string_data_append, List.append_assoc]
  rw [hd]
  exact infixOfB_sandwich _ _ _

/-- A string occurs at the front of mid ++ post. -/
theorem containsSub_left (mid post : String) : containsSub (mid ++ post) mid = true := by
  show infixOfB mid.data (mid ++ post).data = true
  rw [string_data_append]
  simpa using infixOfB_sandwich mid.data [] post.data

/-- A string occurs at the back of pre ++ mid. -/
theorem containsSub_right (pre mid : String) : containsSub (pre ++ mid) mid = true := by
  show infixOfB mid.data (pre ++ mid).data = true
  rw [string_data_append]
  simpa using infixOfB_sandwich mid.data pre.data []

/-- C10 amended: for every raw model text, the fence stripping of line
104 leaves no occurrence of the bare fence marker nor of the json fence
marker anywhere in the text handed to json.loads — so literal fences
inside the suggestions value are silently deleted; the returned
suggestions string can nevertheless contain the markers when the JSON
encodes backticks through escape sequences, see the counterexample. -/
theorem c10_fence_stripping (raw : String) :
    containsSub (stripFences raw) fenceTick = false ∧
    containsSub (stripFences raw) fenceJson = false := by
  have htick : fenceTick.data = [tick, tick, tick] := rfl
  have hjson : fenceJson.data = [tick, tick, tick] ++ ['j', 's', 'o', 'n'] := rfl
  have hmain : infixOfB [tick, tick, tick] (stripFences raw).data = false := by
    show infixOfB [tick, tick, tick]
        (replaceAllF fenceTick.data "".data
          (pyReplace (pyStrip raw) fenceJson "").data.length
          (pyReplace (pyStrip raw) fenceJson "").data) = false
    rw [htick]
    exact tickInfix_out_false _ _ (le_refl _)
  constructor
  · show infixOfB fenceTick.data (stripFences raw).data = false
    rw [htick]
    exact hmain
  · show infixOfB fenceJson.data (stripFences raw).data = false
    cases hfj : infixOfB fenceJson.data (stripFences raw).data with
    | false => rfl
    | true =>
      exfalso
      rw [hjson] at hfj
      have hcut := infixOfB_append_left [tick, tick, tick] ['j', 's', 'o', 'n'] _ hfj
      rw [hmain] at hcut
      exact Bool.false_ne_true hcut

/-- A request with both text fields short, a pdf content type and an empty
payload, used to instantiate the universally quantified theorems below. -/
def reqStd : Request := ⟨"jd", "jt", some "application/pdf", []⟩

/-- A second request differing from reqStd in every field, for the
determinism statement of mock mode. -/
def reqDocx : Request :=
  ⟨"other description", "other title",
    some "application/vnd.openxmlformats-officedocument.wordprocessingml.document", [1, 2, 3]⟩

/-- A request with a rejected content type. -/
def reqBadMime : Request := ⟨"jd", "jt", some "text/plain", []⟩

/-- A request with no declared content type. -/
def reqNoMime : Request := ⟨"jd", "jt", none, []⟩

/-- A configured environment whose generate call answers with the given
text, whose upload succeeds with a fixed handle name, whose delete
succeeds, and whose loads is the concrete json model. -/
def mkEnv (t : String) : Env :=
  ⟨true, fun _ _ => .ok "files/abc123", fun _ => .ok t, fun _ => .ok (), jsonLoads⟩

/-- An environment in which the Gemini client failed to initialize. -/
def envOff : Env :=
  ⟨false, fun _ _ => .error "no client", fun _ => .error "no client", fun _ => .ok (), jsonLoads⟩

/-- The well-formed model reply of property 4 of the spec. -/
def c6Plain : String := "\x7b\"matchScore\": 88, \"suggestions\": \"add X\"\x7d"

/-- The same reply wrapped in markdown code fences. -/
def c6Fenced : String :=
  "\x60\x60\x60json\n\x7b\"matchScore\": 88, \"suggestions\": \"add X\"\x7d\n\x60\x60\x60"

/-- A model reply whose matchScore is the JSON boolean true. -/
def c2Text : String := "\x7b\"matchScore\": true, \"suggestions\": \"ok\"\x7d"

/-- A model reply whose matchScore is the JSON boolean false. -/
def c5Text : String := "\x7b\"matchScore\": false, \"suggestions\": \"keep\"\x7d"

/-- A model reply with an out-of-range matchScore. -/
def c5Wide : String := "\x7b\"matchScore\": 150, \"suggestions\": \"x\"\x7d"

/-- A model reply whose suggestions value spells three backticks through
JSON unicode escapes, so the literal fence never appears in the raw text. -/
def c10Text : String :=
  "\x7b\"matchScore\": 10, \"suggestions\": \"\\u0060\\u0060\\u0060\"\x7d"

/-- C1: on every backend-configured request that passes media validation,
if the file-staging upload succeeds with handle h, exactly one deletion
call for h is issued before the handler returns, on every exit path
(success return, degraded parse-failure return, exception exit, even a
failing delete); if the upload raised and no handle was created, no
deletion call is issued. -/
theorem c1_cleanup_exactly_once (env : Env) (req : Request)
    (hc : env.geminiConfigured = true)
    (hm : mimeCheckFails req.contentType = false) :
    (∀ h, env.upload req.fileBytes req.contentType = .ok h →
      (atsOptimizeResume env req).2.deleteCalls = [h]) ∧
    (∀ e, env.upload req.fileBytes req.contentType = .error e →
      (atsOptimizeResume env req).2.deleteCalls = []) := by
  constructor
  · intro h hu
    cases hd : env.delete h <;> simp [atsOptimizeResume, hm, hc, hu, hd]
  · intro e hu
    simp [atsOptimizeResume, hm, hc, hu]

/-- Witness for C1: the single delete call for the created handle is
observable in a concrete run. -/
theorem c1_witness :
    (atsOptimizeResume (mkEnv c6Plain) reqStd).2.deleteCalls = ["files/abc123"] :=
  (c1_cleanup_exactly_once (mkEnv c6Plain) reqStd rfl rfl).1 "files/abc123" rfl

/-- C3: when the Gemini client failed to initialize, every request passing
media validation returns the same fixed mock result (success true, score
75, marker in the suggestions) with no upload, generate or delete call. -/
theorem c3_mock_mode (env : Env) (r1 r2 : Request)
    (hc : env.geminiConfigured = false)
    (h1 : mimeCheckFails r1.contentType = false)
    (h2 : mimeCheckFails r2.contentType = false) :
    atsOptimizeResume env r1 = (.ok ⟨true, .int 75, .str mockSuggestions⟩, ⟨0, 0, []⟩) ∧
    (atsOptimizeResume env r1).1 = (atsOptimizeResume env r2).1 ∧
    containsSub mockSuggestions "MOCK DATA" = true := by
  refine ⟨?_, ?_, by decide⟩
  · simp [atsOptimizeResume, h1, hc]
  · simp [atsOptimizeResume, h1, h2, hc]

/-- Witness for C3: the mock result and empty trace in a concrete run. -/
theorem c3_witness :
    atsOptimizeResume envOff reqStd = (.ok ⟨true, .int 75, .str mockSuggestions⟩, ⟨0, 0, []⟩) :=
  (c3_mock_mode envOff reqStd reqDocx rfl rfl rfl).1

/-- C9: when the cleanup deletion call itself raises, the delete exception
propagates out of the handler unhandled and the Analysis Result computed
before cleanup (successful or degraded) is not returned. -/
theorem c9_cleanup_failure_propagates (env : Env) (req : Request) (h d : String)
    (hc : env.geminiConfigured = true)
    (hm : mimeCheckFails req.contentType = false)
    (hu : env.upload req.fileBytes req.contentType = .ok h)
    (hd : env.delete h = .error d) :
    (atsOptimizeResume env req).1 = .raised d ∧
    ∀ r : AnalysisResult, (atsOptimizeResume env req).1 ≠ .ok r := by
  have hmain : (atsOptimizeResume env req).1 = .raised d := by
    simp [atsOptimizeResume, hm, hc, hu, hd]
  refine ⟨hmain, fun r hr => ?_⟩
  rw [hmain] at hr
  cases hr

/-- A concrete environment whose delete call fails. -/
def envDelFail : Env :=
  ⟨true, fun _ _ => .ok "files/abc123", fun _ => .ok c6Plain,
    fun _ => .error "delete failed", jsonLoads⟩

/-- Witness for C9: the delete exception replaces the computed result. -/
theorem c9_witness : (atsOptimizeResume envDelFail reqStd).1 = .raised "delete failed" :=
  (c9_cleanup_failure_propagates envDelFail reqStd "files/abc123" "delete failed"
    rfl rfl rfl rfl).1

/-- C7: a present (truthy, per the line 48 Python test) declared media
type matching neither accepted prefix yields the 400 error with no AI
service call and no side effects; an absent media type skips validation
and the request proceeds (it is never rejected with the 400, and when the
backend is configured the upload call is issued). -/
theorem c7_media_validation (env : Env) (req : Request) :
    (∀ m, req.contentType = some m → m.data.isEmpty = false → pdfOrDocx m = false →
      atsOptimizeResume env req = (.httpError 400 invalidFileDetail, ⟨0, 0, []⟩)) ∧
    (req.contentType = none →
      (atsOptimizeResume env req).1 ≠ .httpError 400 invalidFileDetail ∧
      (env.geminiConfigured = true → (atsOptimizeResume env req).2.uploadCalls = 1)) := by
  constructor
  · intro m hm hne hpd
    have hmf : mimeCheckFails req.contentType = true := by
      rw [hm]
      simp [mimeCheckFails, hne, hpd]
    simp [atsOptimizeResume, hmf]
  · intro hnone
    have hmf : mimeCheckFails req.contentType = false := by rw [hnone]; rfl
    constructor
    · cases hg : env.geminiConfigured with
      | false => simp [atsOptimizeResume, hmf, hg]
      | true =>
        cases hu : env.upload req.fileBytes req.contentType with
        | error e => simp [atsOptimizeResume, hmf, hg, hu]
        | ok h =>
          cases hd : env.delete h with
          | error d => simp [atsOptimizeResume, hmf, hg, hu, hd]
          | ok u =>
            cases hgen : env.generate ⟨geminiModel, systemInstruction, promptFor req, h⟩ with
            | error e => simp [atsOptimizeResume, hmf, hg, hu, hd, hgen]
            | ok t =>
              cases hpb : parseBody env.loads t with
              | error msg => simp [atsOptimizeResume, hmf, hg, hu, hd, hgen, hpb]
              | ok p =>
                obtain ⟨ms, sug⟩ := p
                simp [atsOptimizeResume, hmf, hg, hu, hd, hgen, hpb]
    · intro hg
      cases hu : env.upload req.fileBytes req.contentType with
      | error e => simp [atsOptimizeResume, hmf, hg, hu]
      | ok h => cases hd : env.delete h <;> simp [atsOptimizeResume, hmf, hg, hu, hd]

/-- Witness for C7: a text/plain upload is rejected with the 400 and an
empty trace. -/
theorem c7_witness :
    atsOptimizeResume (mkEnv c6Plain) reqBadMime = (.httpError 400 invalidFileDetail, ⟨0, 0, []⟩) :=
  (c7_media_validation (mkEnv c6Plain) reqBadMime).1 "text/plain" rfl rfl rfl

/-- C8: when the upload call or the generation call raises, the handler
answers with the 500 whose detail embeds the underlying error text, and it
still issues the deletion call exactly when a handle had been created
before the failure (the generation case; no handle exists in the upload
case); the generation case is stated under a succeeding cleanup, the
failing cleanup being the subject of C9. -/
theorem c8_service_error (env : Env) (req : Request)
    (hc : env.geminiConfigured = true)
    (hm : mimeCheckFails req.contentType = false) :
    (∀ e, env.upload req.fileBytes req.contentType = .error e →
      (atsOptimizeResume env req).1 = .httpError 500 (svcDetail e) ∧
      containsSub (svcDetail e) e = true ∧
      (atsOptimizeResume env req).2.deleteCalls = []) ∧
    (∀ h e, env.upload req.fileBytes req.contentType = .ok h →
      env.generate ⟨geminiModel, systemInstruction, promptFor req, h⟩ = .error e →
      env.delete h = .ok () →
      (atsOptimizeResume env req).1 = .httpError 500 (svcDetail e) ∧
      containsSub (svcDetail e) e = true ∧
      (atsOptimizeResume env req).2.deleteCalls = [h]) := by
  constructor
  · intro e hu
    refine ⟨by simp [atsOptimizeResume, hm, hc, hu], ?_,
      by simp [atsOptimizeResume, hm, hc, hu]⟩
    exact containsSub_right
      "AI Service Error: Failed to process file. Check API keys and Vercel logs. Error: " e
  · intro h e hu hgen hdel
    refine ⟨by simp [atsOptimizeResume, hm, hc, hu, hgen, hdel], ?_,
      by simp [atsOptimizeResume, hm, hc, hu, hgen, hdel]⟩
    exact containsSub_right
      "AI Service Error: Failed to process file. Check API keys and Vercel logs. Error: " e

/-- A concrete environment whose upload call fails. -/
def envUpFail : Env :=
  ⟨true, fun _ _ => .error "boom", fun _ => .ok c6Plain, fun _ => .ok (), jsonLoads⟩

/-- Witness for C8: a failing upload yields the 500 embedding the error
text, with no delete call. -/
theorem c8_witness :
    (atsOptimizeResume envUpFail reqStd).1 = .httpError 500 (svcDetail "boom") ∧
    containsSub (svcDetail "boom") "boom" = true ∧
    (atsOptimizeResume envUpFail reqStd).2.deleteCalls = [] :=
  (c8_service_error envUpFail reqStd rfl rfl).1 "boom" rfl

/-- The fixed head of the degraded suggestions string splits off its
parse-error marker. -/
theorem parseFail_head_split :
    ("Error: Could not parse structured output from AI. Raw response: " : String).data =
      ("Error: Could not parse structured output from AI." : String).data ++
        (" Raw response: " : String).data := by decide

/-- The degraded suggestions string contains the first 200 characters of
the raw model text. -/
theorem parseFail_contains_excerpt (t : String) :
    containsSub (parseFailSuggestions t) (pyTake 200 t) = true :=
  containsSub_middle "Error: Could not parse structured output from AI. Raw response: "
    (pyTake 200 t) "..."

/-- The degraded suggestions string contains the parse-error marker. -/
theorem parseFail_contains_marker (t : String) :
    containsSub (parseFailSuggestions t)
      "Error: Could not parse structured output from AI." = true := by
  show infixOfB ("Error: Could not parse structured output from AI." : String).data
    (parseFailSuggestions t).data = true
  have hd1 : (parseFailSuggestions t).data =
      ("Error: Could not parse structured output from AI." : String).data ++
        ((" Raw response: " : String).data ++
          ((pyTake 200 t).data ++ ("..." : String).data)) := by
    show (("Error: Could not parse structured output from AI. Raw response: " ++ pyTake 200 t)
        ++ "...").data = _
    rw [string_data_append, string_data_append, parseFail_head_split,
      List.append_assoc, List.append_assoc]
  rw [hd1]
  simpa using infixOfB_sandwich
    ("Error: Could not parse structured output from AI." : String).data [] _

/-- C4: when the model text is not valid JSON (json.loads raises, that is
loads returns none on the fence-stripped text), the handler returns
success true, matchScore 50, and a suggestions string containing the first
200 characters of the raw text and the parse-error marker; it does not
raise on this path (cleanup succeeding, per C9). -/
theorem c4_parse_failure_degraded (env : Env) (req : Request) (h t : String)
    (hc : env.geminiConfigured = true)
    (hm : mimeCheckFails req.contentType = false)
    (hu : env.upload req.fileBytes req.contentType = .ok h)
    (hg : env.generate ⟨geminiModel, systemInstruction, promptFor req, h⟩ = .ok t)
    (hl : env.loads (stripFences t) = none)
    (hd : env.delete h = .ok ()) :
    (atsOptimizeResume env req).1 = .ok ⟨true, .int 50, .str (parseFailSuggestions t)⟩ ∧
    containsSub (parseFailSuggestions t) (pyTake 200 t) = true ∧
    containsSub (parseFailSuggestions t)
      "Error: Could not parse structured output from AI." = true := by
  refine ⟨?_, parseFail_contains_excerpt t, parseFail_contains_marker t⟩
  simp [atsOptimizeResume, hm, hc, hu, hg, hd, parseBody, hl]

/-- Witness for C4: a concrete non-JSON model reply. -/
theorem c4_witness :
    (atsOptimizeResume (mkEnv ":::") reqStd).1 =
      .ok ⟨true, .int 50, .str (parseFailSuggestions ":::")⟩ ∧
    containsSub (parseFailSuggestions ":::") (pyTake 200 ":::") = true ∧
    containsSub (parseFailSuggestions ":::")
      "Error: Could not parse structured output from AI." = true :=
  c4_parse_failure_degraded (mkEnv ":::") reqStd "files/abc123" ":::" rfl rfl rfl rfl rfl rfl

/-- C6: a well-formed model object with matchScore 88 and suggestions
"add X" is returned as is; a missing matchScore defaults to 0 and a
missing suggestions to the fixed default string; and the concrete json
model parses the reply identically with and without markdown fences, the
fences being removed by the strip of line 104. -/
theorem c6_wellformed_and_defaults (env : Env) (req : Request) (h t : String)
    (hc : env.geminiConfigured = true)
    (hm : mimeCheckFails req.contentType = false)
    (hu : env.upload req.fileBytes req.contentType = .ok h)
    (hg : env.generate ⟨geminiModel, systemInstruction, promptFor req, h⟩ = .ok t)
    (hd : env.delete h = .ok ()) :
    (env.loads (stripFences t) =
        some (.dict [("matchScore", .int 88), ("suggestions", .str "add X")]) →
      (atsOptimizeResume env req).1 = .ok ⟨true, .int 88, .str "add X"⟩) ∧
    (env.loads (stripFences t) = some (.dict [("suggestions", .str "only")]) →
      (atsOptimizeResume env req).1 = .ok ⟨true, .int 0, .str "only"⟩) ∧
    (env.loads (stripFences t) = some (.dict [("matchScore", .int 42)]) →
      (atsOptimizeResume env req).1 = .ok ⟨true, .int 42, .str noSuggestionsDefault⟩) ∧
    jsonLoads (stripFences c6Fenced) =
      some (.dict [("matchScore", .int 88), ("suggestions", .str "add X")]) ∧
    jsonLoads (stripFences c6Plain) =
      some (.dict [("matchScore", .int 88), ("suggestions", .str "add X")]) := by
  refine ⟨?_, ?_, ?_, rfl, rfl⟩ <;> intro hl <;>
    simp [atsOptimizeResume, hm, hc, hu, hg, hd, parseBody, hl, pyDictGet,
      scoreInvalid, pyIsInstInt, pyToInt, List.find?]

/-- Witness for C6: the fenced concrete reply produces 88 and "add X". -/
theorem c6_witness :
    (atsOptimizeResume (mkEnv c6Fenced) reqStd).1 = .ok ⟨true, .int 88, .str "add X"⟩ :=
  (c6_wellformed_and_defaults (mkEnv c6Fenced) reqStd "files/abc123" c6Fenced
    rfl rfl rfl rfl rfl).1 rfl

/-- C2 counterexample: a model reply whose matchScore is the JSON boolean
true passes the line 110 check unchanged, because Python bool subclasses
int (isinstance(True, int) holds and True compares as 1), so the handler
returns a boolean matchScore, which is not PyVal.int n for any n. -/
theorem c2_counterexample :
    (atsOptimizeResume (mkEnv c2Text) reqStd).1 = .ok ⟨true, .bool true, .str "ok"⟩ ∧
    ∀ n : Int, PyVal.bool true ≠ PyVal.int n := by
  refine ⟨rfl, fun n h => ?_⟩
  cases h

/-- C2 amended: on every path on which the handler returns an Analysis
Result, the matchScore is either an integer in 0..100 or a Python boolean
(which the isinstance int check of line 110 lets through); it is never any
other type nor an out-of-range integer. -/
theorem c2_amended_matchscore (env : Env) (req : Request) (r : AnalysisResult)
    (hr : (atsOptimizeResume env req).1 = .ok r) :
    (∃ n : Int, r.matchScore = .int n ∧ 0 ≤ n ∧ n ≤ 100) ∨
      (∃ b : Bool, r.matchScore = .bool b) := by
  cases hmc : mimeCheckFails req.contentType with
  | true => simp [atsOptimizeResume, hmc] at hr
  | false =>
  cases hg : env.geminiConfigured with
  | false =>
    simp [atsOptimizeResume, hmc, hg] at hr
    subst hr
    exact Or.inl ⟨75, rfl, by decide, by decide⟩
  | true =>
  cases hu : env.upload req.fileBytes req.contentType with
  | error e => simp [atsOptimizeResume, hmc, hg, hu] at hr
  | ok hdl =>
  cases hdel : env.delete hdl with
  | error d => simp [atsOptimizeResume, hmc, hg, hu, hdel] at hr
  | ok u =>
  cases hgen : env.generate ⟨geminiModel, systemInstruction, promptFor req, hdl⟩ with
  | error e => simp [atsOptimizeResume, hmc, hg, hu, hdel, hgen] at hr
  | ok t =>
  cases hl : env.loads (stripFences t) with
  | none =>
    simp [atsOptimizeResume, hmc, hg, hu, hdel, hgen, parseBody, hl] at hr
    subst hr
    exact Or.inl ⟨50, rfl, by decide, by decide⟩
  | some v =>
  cases v with
  | int n => simp [atsOptimizeResume, hmc, hg, hu, hdel, hgen, parseBody, hl] at hr
  | str s => simp [atsOptimizeResume, hmc, hg, hu, hdel, hgen, parseBody, hl] at hr
  | bool b => simp [atsOptimizeResume, hmc, hg, hu, hdel, hgen, parseBody, hl] at hr
  | null => simp [atsOptimizeResume, hmc, hg, hu, hdel, hgen, parseBody, hl] at hr
  | dict entries =>
  cases hsi : scoreInvalid (pyDictGet entries "matchScore" (.int 0)) with
  | true =>
    simp [atsOptimizeResume, hmc, hg, hu, hdel, hgen, parseBody, hl, hsi] at hr
    subst hr
    exact Or.inl ⟨50, rfl, by decide, by decide⟩
  | false =>
    simp [atsOptimizeResume, hmc, hg, hu, hdel, hgen, parseBody, hl, hsi] at hr
    subst hr
    cases hms : pyDictGet entries "matchScore" (.int 0) with
    | int n =>
      refine Or.inl ⟨n, rfl, ?_, ?_⟩ <;>
        (rw [hms] at hsi; simp [scoreInvalid, pyIsInstInt, pyToInt] at hsi; omega)
    | bool b => exact Or.inr ⟨b, rfl⟩
    | str s =>
      rw [hms] at hsi
      simp [scoreInvalid, pyIsInstInt] at hsi
    | null =>
      rw [hms] at hsi
      simp [scoreInvalid, pyIsInstInt] at hsi
    | dict d2 =>
      rw [hms] at hsi
      simp [scoreInvalid, pyIsInstInt] at hsi

/-- Witness for the amended C2 at a concrete returned result. -/
theorem c2_amended_witness :
    (∃ n : Int,
        (AnalysisResult.mk true (.int 88) (.str "add X")).matchScore = PyVal.int n ∧
          0 ≤ n ∧ n ≤ 100) ∨
      (∃ b : Bool, (AnalysisResult.mk true (.int 88) (.str "add X")).matchScore = PyVal.bool b) :=
  c2_amended_matchscore (mkEnv c6Plain) reqStd ⟨true, .int 88, .str "add X"⟩ rfl

/-- C5 counterexample: a model reply whose matchScore is the JSON boolean
false (a wrong type for an integer score) is not treated as a parse
failure: the handler returns it unchanged with the original suggestions
instead of the degraded 50-and-marker result. -/
theorem c5_counterexample :
    (atsOptimizeResume (mkEnv c5Text) reqStd).1 = .ok ⟨true, .bool false, .str "keep"⟩ ∧
    (Outcome.ok ⟨true, .bool false, .str "keep"⟩ ≠
      .ok ⟨true, .int 50, .str (parseFailSuggestions c5Text)⟩) := by
  refine ⟨rfl, fun h => ?_⟩
  simp at h

/-- Spec-side predicate, following the amended claim wording: the
matchScore value is of a wrong type other than a JSON boolean, or an
integer outside 0..100. -/
def badScore : PyVal → Bool
  | .int n => decide (n < 0) || decide (100 < n)
  | .bool _ => false
  | .str _ => true
  | .null => true
  | .dict _ => true

/-- C5 amended: a parsed object whose matchScore is of a wrong type other
than a JSON boolean, or an integer out of range, is treated exactly as a
parse failure: matchScore 50 and the parse-error marker in the
suggestions (JSON booleans instead pass the isinstance int check of line
110 and are returned unchanged, see the counterexample). -/
theorem c5_amended_invalid_score (env : Env) (req : Request) (h t : String)
    (entries : List (String × PyVal))
    (hc : env.geminiConfigured = true)
    (hm : mimeCheckFails req.contentType = false)
    (hu : env.upload req.fileBytes req.contentType = .ok h)
    (hg : env.generate ⟨geminiModel, systemInstruction, promptFor req, h⟩ = .ok t)
    (hd : env.delete h = .ok ())
    (hl : env.loads (stripFences t) = some (.dict entries))
    (hbad : badScore (pyDictGet entries "matchScore" (.int 0)) = true) :
    (atsOptimizeResume env req).1 = .ok ⟨true, .int 50, .str (parseFailSuggestions t)⟩ ∧
    containsSub (parseFailSuggestions t)
      "Error: Could not parse structured output from AI." = true := by
  have hsi : scoreInvalid (pyDictGet entries "matchScore" (.int 0)) = true := by
    cases hv : pyDictGet entries "matchScore" (.int 0) with
    | int n =>
      rw [hv] at hbad
      simp [badScore] at hbad
      simp [scoreInvalid, pyIsInstInt, pyToInt]
      rcases hbad with hb | hb
      · exact Or.inl hb
      · exact Or.inr hb
    | bool b =>
      rw [hv] at hbad
      simp [badScore] at hbad
    | str s => simp [scoreInvalid, pyIsInstInt]
    | null => simp [scoreInvalid, pyIsInstInt]
    | dict d => simp [scoreInvalid, pyIsInstInt]
  refine ⟨?_, parseFail_contains_marker t⟩
  simp [atsOptimizeResume, hm, hc, hu, hg, hd, parseBody, hl, hsi]

/-- Witness for the amended C5: the out-of-range score 150 of spec
property 6 is degraded to 50 with the marker. -/
theorem c5_amended_witness :
    (atsOptimizeResume (mkEnv c5Wide) reqStd).1 =
      .ok ⟨true, .int 50, .str (parseFailSuggestions c5Wide)⟩ ∧
    containsSub (parseFailSuggestions c5Wide)
      "Error: Could not parse structured output from AI." = true :=
  c5_amended_invalid_score (mkEnv c5Wide) reqStd "files/abc123" c5Wide
    [("matchScore", .int 150), ("suggestions", .str "x")] rfl rfl rfl rfl rfl rfl (by decide)

/-- C10 counterexample: a model reply that spells three backticks inside
the suggestions value through JSON unicode escapes; the raw text contains
no literal fence, so the stripping leaves it intact, and the returned
suggestions string does contain the fence substring. -/
theorem c10_counterexample :
    (atsOptimizeResume (mkEnv c10Text) reqStd).1 = .ok ⟨true, .int 10, .str fenceTick⟩ ∧
    containsSub fenceTick fenceTick = true ∧
    containsSub c10Text fenceTick = false := by
  refine ⟨rfl, by decide, by decide⟩
